import Mathlib

/-!
Shallow embedding of `src/app.py` (research-ai-agent): a Flask pipeline that
turns a topic string into a grounded summary via
search → parallel fetch/extract → prompt construction → model call → markdown.

External collaborators (the Google CSE client, the `newspaper` Article
extractor, the Gemini model handle and the `markdown` converter) are modelled
as function-valued fields of a `World`; each of their calls either raises
(`Except.error`) or returns a value, exactly as the Python `try`/`except`
blocks around them assume.  Python strings are Lean `String`s (lists of
characters); Python truthiness of strings/lists is modelled explicitly.
-/

namespace ResearchAgent

/-- Python truthiness of an optional string: `None` and `""` are falsy.
Models checks like `if not api_key` in `search_articles`. -/
def truthy : Option String → Bool
  | none => false
  | some s => s != ""

/-- Python prefix slice `s[:n]`: the first `n` characters of `s`.
Models `content[:max_chars]` and `combined_text[:20000]`. -/
def pySlice (s : String) (n : Nat) : String :=
  String.mk (s.data.take n)

/-- Whitespace recognised by Python `str.strip()`: the Unicode whitespace
characters, i.e. exactly those for which `str.isspace()` holds — ASCII
whitespace (space, tab, newline, carriage return, vertical tab, form feed),
the separators U+001C to U+001F, next line U+0085, no-break space U+00A0,
ogham space mark U+1680, the U+2000 to U+200A spaces, line separator U+2028,
paragraph separator U+2029, narrow no-break space U+202F, medium mathematical
space U+205F, and ideographic space U+3000 (each written below as the literal
character). -/
def isPySpace (c : Char) : Bool :=
  c == ' ' || c == '\t' || c == '\n' || c == '\r' || c == '\x0b' || c == '\x0c' ||
  c == '\x1c' || c == '\x1d' || c == '\x1e' || c == '\x1f' ||
  c == '\x85' || c == '\xa0' || c == ' ' ||
  c == ' ' || c == ' ' || c == ' ' || c == ' ' ||
  c == ' ' || c == ' ' || c == ' ' || c == ' ' ||
  c == ' ' || c == ' ' || c == ' ' ||
  c == ' ' || c == ' ' || c == ' ' || c == ' ' || c == '　'

/-- Python `s.strip()`: remove leading and trailing whitespace.
Models `request.form.get("topic", "").strip()` in `index`. -/
def pyStrip (s : String) : String :=
  String.mk (((s.data.dropWhile isPySpace).reverse.dropWhile isPySpace).reverse)

/-- The process-wide configuration and the external collaborators of one run.
Fields, in order: the two search credentials read from the environment
(`os.getenv`, `None` when absent), the Google CSE call
(`service.cse().list(...).execute()`, abstracted to the list of result links or
a raised error), the `newspaper` download-and-parse step for one URL
(`article.download(); article.parse(); article.text`, abstracted to the
extracted text or a raised error), the Gemini model handle (`model`, `none`
when startup configuration failed; a call returns `response.text` or raises),
and the `markdown.markdown` converter. -/
structure World where
  googleApiKey : Option String
  googleCseId : Option String
  searchApi : String → Nat → Except Unit (List String)
  fetchApi : String → Except Unit String
  model : Option (String → Except Unit String)
  markdownFn : String → String

/-- Embedding of `search_articles(topic, max_results=5)` (app.py lines 28-53):
missing credentials or a raised provider error yield `[]`; otherwise the
provider's links are returned unchanged. -/
def search_articles (w : World) (topic : String) (max_results : Nat) : List String :=
  if !truthy w.googleApiKey || !truthy w.googleCseId then
    []
  else
    match w.searchApi topic max_results with
    | Except.ok links => links
    | Except.error _ => []

/-- Embedding of `fetch_article_content(url, max_chars=3000)` (app.py lines
55-72): a raised download/parse error or empty extracted text yields `None`;
otherwise the text truncated to `max_chars` characters. -/
def fetch_article_content (w : World) (url : String) (max_chars : Nat) : Option String :=
  match w.fetchApi url with
  | Except.error _ => none
  | Except.ok content =>
    if content == "" then none else some (pySlice content max_chars)

/-- Embedding of `fetch_all_articles_parallel(links)` (app.py lines 74-86):
`executor.map(fetch_article_content, links)` yields the per-URL results in
input order (each with the default `max_chars=3000`); the loop keeps exactly
the truthy ones (`if content:` drops both `None` and `""`). -/
def fetch_all_articles_parallel (w : World) (links : List String) : List String :=
  (links.map (fun url => fetch_article_content w url 3000)).filterMap
    (fun content =>
      match content with
      | some s => if s == "" then none else some s
      | none => none)

/-- The fixed apology returned when the model handle is unavailable. -/
def model_unavailable_msg : String :=
  "The generative model is not available due to a configuration error."

/-- The fixed user-facing error string returned when the model call raises. -/
def generation_error_msg : String :=
  "An error occurred while generating the summary. Please try again."

/-- The joined article blob of `generate_summary_with_model`: contents joined
by the fixed delimiter, then prefix-truncated when longer than 20000. -/
def combined_text_of (contents : List String) : String :=
  if (String.intercalate "\n\n---\n\n" contents).length > 20000 then
    pySlice (String.intercalate "\n\n---\n\n" contents) 20000
  else
    String.intercalate "\n\n---\n\n" contents

/-- Everything of the f-string prompt before the combined text. -/
def prompt_head (topic : String) : String :=
  "\nYou are an expert research summarization bot. Your task is to synthesize information from multiple web articles related to the topic: **"
  ++ topic ++
  "**.\n\nFollow these strict rules:\n1.  **Format:** Produce a summary in a clear, concise bullet-point list using Markdown.\n2.  **Content:** The summary must contain only key findings, facts, trends, and statistics explicitly mentioned in the provided articles. Do not add any outside information or speculate.\n3.  **Tone:** Maintain a neutral, factual, and professional tone.\n4.  **Structure:** Each bullet point should start with a key insight, followed by one or two supporting sentences for context if necessary.\n\n### Articles for Analysis:\n"

/-- The full prompt f-string of `generate_summary_with_model` (app.py lines
103-114): the instruction text with the topic interpolated, then the combined
text, then the closing newline of the triple-quoted literal. -/
def prompt_of (topic : String) (combined_text : String) : String :=
  prompt_head topic ++ combined_text ++ "\n"

/-- Embedding of `generate_summary_with_model(topic, contents)` (app.py lines
88-120): fixed apology when the model handle is `None`; otherwise one model
call with the constructed prompt, returning its text, or the fixed error
string when the call raises. -/
def generate_summary_with_model (w : World) (topic : String) (contents : List String) : String :=
  match w.model with
  | none => model_unavailable_msg
  | some m =>
    match m (prompt_of topic (combined_text_of contents)) with
    | Except.ok text => text
    | Except.error _ => generation_error_msg

/-- The prompts `generate_summary_with_model` sends to the model: none when
the handle is unavailable, exactly the one constructed prompt otherwise (the
code has a single `model.generate_content(prompt)` call site and no retry). -/
def generate_model_calls (w : World) (topic : String) (contents : List String) : List String :=
  match w.model with
  | none => []
  | some _ => [prompt_of topic (combined_text_of contents)]

/-- The "empty topic" message of the orchestrator. -/
def empty_topic_msg : String := "Please enter a valid topic to summarize."

/-- The "no articles found" message of the orchestrator (the source file's
literal begins with three mojibake characters). -/
def no_articles_msg : String :=
  "‚ùå Could not find any relevant articles for this topic. Please check your API keys or try a different topic."

/-- The extraction-failure message of the orchestrator. -/
def extraction_failed_msg : String :=
  "‚ùå Found articles, but failed to extract content from all of them."

/-- The keyword arguments the orchestrator passes to
`render_template("index.html", ...)`: `none` in `topic`/`links` records that
the keyword was omitted from the call (the empty-topic and no-articles
branches omit some of them); `summary = none` records `summary=None`. -/
structure Render where
  summary : Option String
  topic : Option String
  links : Option (List String)
deriving DecidableEq

/-- One pipeline-stage call made by the orchestrator, in program order:
`search_articles(topic)` (with its default `max_results=5`),
`fetch_all_articles_parallel(links)`,
`generate_summary_with_model(topic, contents)`, and the
`markdown.markdown(summary_markdown, ...)` conversion with its input. -/
inductive Event where
  | search (topic : String) (max_results : Nat)
  | fetchAll (links : List String)
  | generate (topic : String) (contents : List String)
  | markdown (input : String)
deriving DecidableEq

/-- The HTTP method of the request. -/
inductive Method where
  | get
  | post
deriving DecidableEq

/-- Embedding of the route handler `index()` (app.py lines 124-151), returning
the rendered context together with the trace of stage calls it made.
`formTopic` is `request.form["topic"]` when present (`request.form.get` with
default `""`). -/
def indexApp (w : World) (method : Method) (formTopic : Option String) : Render × List Event :=
  match method with
  | Method.get => (⟨none, some "", some []⟩, [])
  | Method.post =>
    let topic := pyStrip (formTopic.getD "")
    if topic == "" then
      (⟨some empty_topic_msg, none, none⟩, [])
    else
      let links := search_articles w topic 5
      if links == [] then
        (⟨some no_articles_msg, some topic, none⟩, [Event.search topic 5])
      else
        let contents := fetch_all_articles_parallel w links
        if contents == [] then
          (⟨some extraction_failed_msg, some topic, some links⟩,
            [Event.search topic 5, Event.fetchAll links])
        else
          let summary_markdown := generate_summary_with_model w topic contents
          (⟨some (w.markdownFn summary_markdown), some topic, some links⟩,
            [Event.search topic 5, Event.fetchAll links,
             Event.generate topic contents, Event.markdown summary_markdown])

/-! ## Claim theorems -/

/-- A world with no credentials, failing collaborators and no model handle,
used to instantiate universally quantified theorems at a concrete input. -/
def wNull : World :=
  ⟨none, none, fun _ _ => Except.error (), fun _ => Except.error (), none, fun s => s⟩

/-- A world whose model handle answers every prompt with the fixed text
"OK", used to instantiate C2 and C6 concretely. -/
def wModelOk : World :=
  ⟨none, none, fun _ _ => Except.error (), fun _ => Except.error (),
   some (fun _ => Except.ok "OK"), fun s => s⟩

/-- A world with both search credentials present and a provider that raises,
used to instantiate C3 concretely. -/
def wSearchRaises : World :=
  ⟨some "k", some "c", fun _ _ => Except.error (), fun _ => Except.error (),
   none, fun s => s⟩

/-- A 7000-character extracted text. -/
def longText : String := String.mk (List.replicate 7000 'a')

/-- A world whose article extractor returns the 7000-character text for every
URL, used to instantiate C4 concretely. -/
def wLongArticle : World :=
  ⟨none, none, fun _ _ => Except.error (), fun _ => Except.ok longText,
   none, fun s => s⟩

/-- A world whose extractor succeeds with "Alpha beta." on one fixed URL and
raises on every other, used to instantiate C5 and C7 concretely. -/
def wOneGood : World :=
  ⟨none, none, fun _ _ => Except.error (),
   fun url => if url = "https://e.com/good" then Except.ok "Alpha beta."
              else Except.error (),
   none, fun s => s⟩

/-- A world with credentials, one search result, a successful extraction and a
model handle that answers every prompt with the empty string. -/
def wModelEmpty : World :=
  ⟨some "k", some "c", fun _ _ => Except.ok ["https://e.com/a"],
   fun _ => Except.ok "Alpha", some (fun _ => Except.ok ""), fun s => s⟩

/-- A world whose extractor succeeds on both of two URLs with distinct texts,
used against C8 as stated. -/
def wTwoGood : World :=
  ⟨none, none, fun _ _ => Except.error (),
   fun url => if url = "https://e.com/1" then Except.ok "A" else Except.ok "B",
   none, fun s => s⟩

/-- A world with credentials whose search call succeeds with zero results,
used against C9 as stated. -/
def wNoResults : World :=
  ⟨some "k", some "c", fun _ _ => Except.ok [], fun _ => Except.error (),
   none, fun s => s⟩

/-- C1: the orchestrator is a short-circuiting state machine.  An
empty-after-strip topic returns the empty-topic message with no stage call;
otherwise search runs, and an empty search result stops after the search call
with the no-articles message; otherwise fetchAll runs, and an empty fetchAll
result stops after it with the extraction-failure message; otherwise generate
runs and its result is handed to the Markdown-to-HTML conversion. -/
theorem C1_orchestrator_short_circuits (w : World) (form : Option String) :
    (pyStrip (form.getD "") = "" →
      indexApp w Method.post form = (⟨some empty_topic_msg, none, none⟩, [])) ∧
    (∀ t, pyStrip (form.getD "") = t → t ≠ "" →
      (search_articles w t 5 = [] →
        indexApp w Method.post form =
          (⟨some no_articles_msg, some t, none⟩, [Event.search t 5])) ∧
      (∀ links, search_articles w t 5 = links → links ≠ [] →
        (fetch_all_articles_parallel w links = [] →
          indexApp w Method.post form =
            (⟨some extraction_failed_msg, some t, some links⟩,
             [Event.search t 5, Event.fetchAll links])) ∧
        (∀ contents, fetch_all_articles_parallel w links = contents → contents ≠ [] →
          indexApp w Method.post form =
            (⟨some (w.markdownFn (generate_summary_with_model w t contents)),
              some t, some links⟩,
             [Event.search t 5, Event.fetchAll links, Event.generate t contents,
              Event.markdown (generate_summary_with_model w t contents)])))) := by
  constructor
  · intro h
    simp [indexApp, h]
  · rintro t rfl ht
    refine ⟨?_, ?_⟩
    · intro hs
      simp [indexApp, ht, hs]
    · rintro links rfl hl
      refine ⟨?_, ?_⟩
      · intro hc
        simp [indexApp, ht, hl, hc]
      · rintro contents rfl hc
        simp [indexApp, ht, hl, hc]

/-- Witness for C1 at a concrete input: a topic field containing only a
no-break space (U+00A0, Unicode whitespace stripped by Python) short-circuits
with the empty-topic message and an empty call trace. -/
theorem C1_orchestrator_short_circuits_witness :
    indexApp wNull Method.post (some "\xa0") = (⟨some empty_topic_msg, none, none⟩, []) :=
  (C1_orchestrator_short_circuits wNull (some "\xa0")).1 (by decide)

/-- C2: generate is total (it is a Lean function into `String`, so it returns
a string on every topic and every list of contents, including `[]`): with no
model handle it returns the fixed apology and makes no model call; with a
handle it makes exactly one call, with the constructed prompt, and returns the
model's text unmodified on success or the fixed error string on a raised
failure, with no retry. -/
theorem C2_generate_never_raises (w : World) (topic : String) (contents : List String) :
    (w.model = none →
      generate_summary_with_model w topic contents = model_unavailable_msg ∧
      generate_model_calls w topic contents = []) ∧
    (∀ m, w.model = some m →
      generate_model_calls w topic contents =
        [prompt_of topic (combined_text_of contents)] ∧
      (∀ t, m (prompt_of topic (combined_text_of contents)) = Except.ok t →
        generate_summary_with_model w topic contents = t) ∧
      (∀ e, m (prompt_of topic (combined_text_of contents)) = Except.error e →
        generate_summary_with_model w topic contents = generation_error_msg)) := by
  refine ⟨fun h => ?_, fun m hm => ?_⟩
  · simp [generate_summary_with_model, generate_model_calls, h]
  · refine ⟨by simp [generate_model_calls, hm], fun t htext => ?_, fun e herr => ?_⟩
    · simp [generate_summary_with_model, hm, htext]
    · simp [generate_summary_with_model, hm, herr]

/-- Witness for C2 at a concrete input: with an available model, a direct call
with the empty article list still returns a string, the model's own text. -/
theorem C2_generate_never_raises_witness :
    generate_summary_with_model wModelOk "t" [] = "OK" :=
  ((C2_generate_never_raises wModelOk "t" []).2 (fun _ => Except.ok "OK") rfl).2.1 "OK" rfl

/-- C3: search never raises (it is a Lean function into `List String`) and,
provided the external provider honours the requested maximum, returns at most
`max_results` links; with a missing or empty API key or engine id, or with a
raised provider error, it returns `[]`, the same value as a genuine
zero-result response. -/
theorem C3_search_caps_and_swallows (w : World) (topic : String) (max_results : Nat)
    (hapi : ∀ q k links, w.searchApi q k = Except.ok links → links.length ≤ k) :
    (search_articles w topic max_results).length ≤ max_results ∧
    (truthy w.googleApiKey = false ∨ truthy w.googleCseId = false →
      search_articles w topic max_results = []) ∧
    (∀ e, w.searchApi topic max_results = Except.error e →
      search_articles w topic max_results = []) ∧
    (∀ links, truthy w.googleApiKey = true → truthy w.googleCseId = true →
      w.searchApi topic max_results = Except.ok links →
      search_articles w topic max_results = links) := by
  refine ⟨?_, fun h => ?_, fun e he => ?_, fun links h1 h2 hok => ?_⟩
  · unfold search_articles
    by_cases hk : truthy w.googleApiKey
    · by_cases hc : truthy w.googleCseId
      · simp only [hk, hc, Bool.not_true, Bool.or_self, Bool.false_eq_true, if_false]
        cases hres : w.searchApi topic max_results with
        | ok links => exact hapi topic max_results links hres
        | error e => simp
      · simp [hc]
    · simp [hk]
  · rcases h with h | h <;> simp [search_articles, h]
  · unfold search_articles
    by_cases hk : truthy w.googleApiKey
    · by_cases hc : truthy w.googleCseId
      · simp [hk, hc, he]
      · simp [hc]
    · simp [hk]
  · simp [search_articles, h1, h2, hok]

/-- Witness for C3 at a concrete input: with credentials present and a raising
provider, search returns the empty list (and trivially at most 5 links). -/
theorem C3_search_caps_and_swallows_witness :
    (search_articles wSearchRaises "quantum computing" 5).length ≤ 5 ∧
    search_articles wSearchRaises "quantum computing" 5 = [] := by
  have h := C3_search_caps_and_swallows wSearchRaises "quantum computing" 5
    (by intro q k links hok; cases hok)
  exact ⟨h.1, h.2.2.1 () rfl⟩

/-- C4: fetch never raises (it is a Lean function into `Option String`);
a raised download/parse error or an empty extracted text yields `none`, never
a partial string; a successful non-empty extraction yields its `max_chars`
prefix, whose length is `min max_chars` the text's length — so every returned
string has length at most `max_chars`, and a 7000-character extraction under
the default budget 3000 is capped to exactly 3000 characters. -/
theorem C4_fetch_truncates_or_fails (w : World) (url : String) (max_chars : Nat) :
    (∀ e, w.fetchApi url = Except.error e →
      fetch_article_content w url max_chars = none) ∧
    (w.fetchApi url = Except.ok "" →
      fetch_article_content w url max_chars = none) ∧
    (∀ c, w.fetchApi url = Except.ok c → c ≠ "" →
      fetch_article_content w url max_chars = some (pySlice c max_chars) ∧
      (pySlice c max_chars).length = min max_chars c.length) ∧
    (∀ s, fetch_article_content w url max_chars = some s → s.length ≤ max_chars) := by
  refine ⟨fun e he => ?_, fun he => ?_, fun c hc hne => ?_, fun s hs => ?_⟩
  · simp [fetch_article_content, he]
  · simp [fetch_article_content, he]
  · refine ⟨by simp [fetch_article_content, hc, hne], ?_⟩
    show (c.data.take max_chars).length = min max_chars c.data.length
    exact c.data.length_take max_chars
  · unfold fetch_article_content at hs
    cases hres : w.fetchApi url with
    | error e => simp [hres] at hs
    | ok c =>
      rw [hres] at hs
      by_cases hne : c = ""
      · simp [hne] at hs
      · simp only [beq_iff_eq, hne, if_false, Option.some.injEq] at hs
        subst hs
        show (c.data.take max_chars).length ≤ max_chars
        simp

/-- Witness for C4 at a concrete input: a 7000-character extraction under the
default budget 3000 yields exactly 3000 characters. -/
theorem C4_fetch_truncates_or_fails_witness :
    fetch_article_content wLongArticle "https://e.com/a" 3000 =
      some (pySlice longText 3000) ∧
    (pySlice longText 3000).length = 3000 := by
  have hne : longText ≠ "" := by
    intro h
    have h0 : (List.replicate 7000 'a').length = ([] : List Char).length :=
      congrArg (fun s => s.data.length) h
    rw [List.length_replicate, List.length_nil] at h0
    exact absurd h0 (by decide)
  have h := (C4_fetch_truncates_or_fails wLongArticle "https://e.com/a" 3000).2.2.1
    longText rfl hne
  refine ⟨h.1, ?_⟩
  rw [h.2]
  have hlen : longText.length = 7000 := by
    show (List.replicate 7000 'a').length = 7000
    rw [List.length_replicate]
  rw [hlen]
  omega

/-- C5: fetchAll returns at most as many contents as it was given URLs; every
returned content is the successful fetch of one of the input URLs (failures
contribute nothing); and fetchAll of the empty list is the empty list. -/
theorem C5_fetchAll_drops_failures (w : World) (links : List String) :
    (fetch_all_articles_parallel w links).length ≤ links.length ∧
    (∀ c ∈ fetch_all_articles_parallel w links,
      ∃ url ∈ links, fetch_article_content w url 3000 = some c) ∧
    fetch_all_articles_parallel w [] = [] := by
  refine ⟨?_, fun c hc => ?_, by simp [fetch_all_articles_parallel]⟩
  · calc (fetch_all_articles_parallel w links).length
        ≤ (links.map (fun url => fetch_article_content w url 3000)).length :=
          List.length_filterMap_le _ _
      _ = links.length := links.length_map _
  · unfold fetch_all_articles_parallel at hc
    rw [List.mem_filterMap] at hc
    obtain ⟨o, ho, hoc⟩ := hc
    rw [List.mem_map] at ho
    obtain ⟨url, hurl, hfo⟩ := ho
    refine ⟨url, hurl, ?_⟩
    cases o with
    | none => simp at hoc
    | some s =>
      by_cases hs : s = ""
      · simp [hs] at hoc
      · simp only [beq_iff_eq, hs, if_false, Option.some.injEq] at hoc
        rw [hfo, hoc]

/-- Witness for C5 at a concrete input: of two URLs only the successful one
contributes, and its content is a fetch result of an input URL. -/
theorem C5_fetchAll_drops_failures_witness :
    fetch_all_articles_parallel wOneGood ["https://e.com/bad", "https://e.com/good"] =
      ["Alpha beta."] ∧
    ∃ url ∈ ["https://e.com/bad", "https://e.com/good"],
      fetch_article_content wOneGood url 3000 = some "Alpha beta." := by
  refine ⟨by decide, ?_⟩
  exact (C5_fetchAll_drops_failures wOneGood
    ["https://e.com/bad", "https://e.com/good"]).2.1 "Alpha beta." (by decide)

/-- C6: with the model available, the text passed to the model is built from
the articles joined in order by the fixed delimiter "\n\n---\n\n"; the joined
blob is left unchanged when its length is at most 20000 and prefix-truncated to
exactly 20000 characters when it is longer (truncation on the blob as a whole),
so it always has length at most 20000; and it is appended verbatim at the end
of the instruction prompt (followed only by the closing newline of the
triple-quoted literal). -/
theorem C6_combined_text_budget (w : World) (m : String → Except Unit String)
    (topic : String) (contents : List String) (hm : w.model = some m) :
    generate_model_calls w topic contents =
      [prompt_of topic (combined_text_of contents)] ∧
    ((String.intercalate "\n\n---\n\n" contents).length ≤ 20000 →
      combined_text_of contents = String.intercalate "\n\n---\n\n" contents) ∧
    ((String.intercalate "\n\n---\n\n" contents).length > 20000 →
      combined_text_of contents =
        pySlice (String.intercalate "\n\n---\n\n" contents) 20000 ∧
      (combined_text_of contents).length = 20000) ∧
    (combined_text_of contents).length ≤ 20000 ∧
    prompt_of topic (combined_text_of contents) =
      prompt_head topic ++ combined_text_of contents ++ "\n" := by
  have hslice : ∀ s : String, ∀ n : Nat, (pySlice s n).length = min n s.length :=
    fun s n => s.data.length_take n
  refine ⟨by simp [generate_model_calls, hm], fun hle => ?_, fun hgt => ?_, ?_, rfl⟩
  · unfold combined_text_of
    rw [if_neg (by omega)]
  · have he : combined_text_of contents =
        pySlice (String.intercalate "\n\n---\n\n" contents) 20000 := by
      unfold combined_text_of
      rw [if_pos (by omega)]
    refine ⟨he, ?_⟩
    rw [he, hslice]
    omega
  · unfold combined_text_of
    by_cases hgt : (String.intercalate "\n\n---\n\n" contents).length > 20000
    · rw [if_pos (by omega), hslice]
      omega
    · rw [if_neg (by omega)]
      omega

/-- Witness for C6 at a concrete input: with the model available, the one
prompt sent to it embeds the two articles joined by the fixed delimiter,
unchanged because the joined blob is short. -/
theorem C6_combined_text_budget_witness :
    generate_model_calls wModelOk "t" ["Alpha.", "Beta."] =
      [prompt_of "t" (combined_text_of ["Alpha.", "Beta."])] ∧
    combined_text_of ["Alpha.", "Beta."] = "Alpha.\n\n---\n\nBeta." := by
  have h := C6_combined_text_budget wModelOk (fun _ => Except.ok "OK") "t"
    ["Alpha.", "Beta."] rfl
  refine ⟨h.1, ?_⟩
  rw [h.2.1 (by decide)]
  decide

/-- Counterexample to C7 as stated: when the model's text output is the empty
string, the orchestrator hands the empty string to the Markdown-to-HTML
conversion and renders it as the summary — a successful-but-empty stage result
carried forward. -/
theorem C7_counterexample :
    Event.markdown "" ∈ (indexApp wModelEmpty Method.post (some "x")).2 ∧
    (indexApp wModelEmpty Method.post (some "x")).1.summary = some "" := by
  decide

/-- C7 as amended: the stages up to generation do satisfy the invariant —
every content fetchAll forwards is non-empty, an empty search result and an
empty fetchAll result are both treated as terminal failures — but the
generation stage's output is not checked: the orchestrator hands generate's
string to Markdown conversion and renders it unconditionally, and that string
can be empty when the model returns empty text. -/
theorem C7_empty_is_failure_except_generate (w : World) (form : Option String) :
    (∀ links, ∀ c ∈ fetch_all_articles_parallel w links, c ≠ "") ∧
    (∀ t, pyStrip (form.getD "") = t → t ≠ "" →
      (search_articles w t 5 = [] →
        (indexApp w Method.post form).2 = [Event.search t 5]) ∧
      (∀ links, search_articles w t 5 = links → links ≠ [] →
        (fetch_all_articles_parallel w links = [] →
          (indexApp w Method.post form).2 = [Event.search t 5, Event.fetchAll links]) ∧
        (fetch_all_articles_parallel w links ≠ [] →
          (indexApp w Method.post form).1.summary =
            some (w.markdownFn
              (generate_summary_with_model w t (fetch_all_articles_parallel w links))) ∧
          Event.markdown
              (generate_summary_with_model w t (fetch_all_articles_parallel w links)) ∈
            (indexApp w Method.post form).2))) ∧
    (∃ w₀ : World, ∃ form₀ : Option String,
      Event.markdown "" ∈ (indexApp w₀ Method.post form₀).2) := by
  refine ⟨fun links c hc => ?_, ?_, ⟨wModelEmpty, some "x", by decide⟩⟩
  · unfold fetch_all_articles_parallel at hc
    rw [List.mem_filterMap] at hc
    obtain ⟨o, _, hoc⟩ := hc
    cases o with
    | none => simp at hoc
    | some s =>
      by_cases hs : s = ""
      · simp [hs] at hoc
      · simp only [beq_iff_eq, hs, if_false, Option.some.injEq] at hoc
        exact hoc ▸ hs
  · rintro t rfl ht
    refine ⟨fun hs => ?_, ?_⟩
    · simp [indexApp, ht, hs]
    · rintro links rfl hl
      refine ⟨fun hc => ?_, fun hc => ?_⟩
      · simp [indexApp, ht, hl, hc]
      · simp [indexApp, ht, hl, hc]

/-- Witness for C7 as amended, at a concrete input: in the all-fetches-fail
run the trace stops after the fetchAll call, and a concrete content returned
by fetchAll is non-empty. -/
theorem C7_empty_is_failure_except_generate_witness :
    (∀ c ∈ fetch_all_articles_parallel wOneGood ["https://e.com/good"], c ≠ "") ∧
    (indexApp wModelEmpty Method.post (some "x")).1.summary = some "" := by
  refine ⟨fun c hc => (C7_empty_is_failure_except_generate wOneGood none).1
    ["https://e.com/good"] c hc, ?_⟩
  have h := ((C7_empty_is_failure_except_generate wModelEmpty (some "x")).2.1
    "x" (by decide) (by decide)).2 ["https://e.com/a"] (by decide) (by decide)
  exact ((h.2 (by decide)).1).trans (by decide)

/-- Counterexample to C8 as stated: `executor.map` yields the per-URL results
in input order, not completion order, so with two successful fetches the
output is exactly the input-ordered list and never its transposition — there
is no run in which the survivors appear out of input order. -/
theorem C8_counterexample :
    fetch_all_articles_parallel wTwoGood ["https://e.com/1", "https://e.com/2"] =
      ["A", "B"] ∧
    fetch_all_articles_parallel wTwoGood ["https://e.com/1", "https://e.com/2"] ≠
      ["B", "A"] := by
  decide

/-- C8 as amended: the relative order of the successful results of fetchAll
always matches the order of their source URLs in the input —
`executor.map` collects the per-URL results in input order, so fetchAll
distributes over concatenation of URL lists (results of earlier URLs precede
results of later ones) and equals the in-order filterMap of the per-URL fetch
results under the truthiness filter. -/
theorem C8_fetchAll_preserves_input_order (w : World) (l₁ l₂ : List String) :
    fetch_all_articles_parallel w (l₁ ++ l₂) =
      fetch_all_articles_parallel w l₁ ++ fetch_all_articles_parallel w l₂ ∧
    fetch_all_articles_parallel w l₁ =
      l₁.filterMap (fun url =>
        match fetch_article_content w url 3000 with
        | some s => if s == "" then none else some s
        | none => none) := by
  constructor
  · unfold fetch_all_articles_parallel
    rw [List.map_append, List.filterMap_append]
  · unfold fetch_all_articles_parallel
    rw [List.filterMap_map]
    rfl

/-- Counterexample to C9 as stated: in the no-articles terminal state the
orchestrator renders with `summary` and `topic` only — the `links` keyword is
omitted from the `render_template` call, not passed as the empty list. -/
theorem C9_counterexample :
    (indexApp wNoResults Method.post (some "quantum computing")).1.links = none ∧
    (indexApp wNoResults Method.post (some "quantum computing")).1.links ≠ some [] := by
  decide

/-- C9 as amended: when search returns an empty list the response carries the
no-articles message and the topic, and no links value at all (the keyword is
omitted from the render call rather than passed as `[]`); when search returns
links but fetchAll returns an empty list the response carries the
extraction-failure message, the topic, and the full list of links returned by
search. -/
theorem C9_failure_states_echo_context (w : World) (form : Option String)
    (t : String) (ht : pyStrip (form.getD "") = t) (hne : t ≠ "") :
    (search_articles w t 5 = [] →
      indexApp w Method.post form =
        (⟨some no_articles_msg, some t, none⟩, [Event.search t 5])) ∧
    (∀ links, search_articles w t 5 = links → links ≠ [] →
      fetch_all_articles_parallel w links = [] →
      indexApp w Method.post form =
        (⟨some extraction_failed_msg, some t, some links⟩,
         [Event.search t 5, Event.fetchAll links])) := by
  subst ht
  refine ⟨fun hs => ?_, ?_⟩
  · simp [indexApp, hne, hs]
  · rintro links rfl hl hc
    simp [indexApp, hne, hl, hc]

/-- Witness for C9 as amended, at a concrete input: with a zero-result search
the rendered context is the no-articles message, the echoed topic, and no
links value. -/
theorem C9_failure_states_echo_context_witness :
    indexApp wNoResults Method.post (some "quantum computing") =
      (⟨some no_articles_msg, some "quantum computing", none⟩,
       [Event.search "quantum computing" 5]) :=
  (C9_failure_states_echo_context wNoResults (some "quantum computing")
    "quantum computing" (by decide) (by decide)).1 (by decide)

/-- A string all of whose characters are Python whitespace strips to the empty
string. -/
theorem pyStrip_eq_empty_of_all_space (s : String) (h : ∀ c ∈ s.data, isPySpace c) :
    pyStrip s = "" := by
  unfold pyStrip
  rw [List.dropWhile_eq_nil_iff.mpr h]
  rfl

/-- C10: a POST whose topic field is absent or consists only of whitespace is
treated exactly like an empty topic — the field is stripped before validation,
the empty-topic message is returned and no stage call is made; conversely, for
an accepted topic, the stripped form is the topic echoed back in the response
and the one used in every search and generate call. -/
theorem C10_topic_stripped_before_validation (w : World) (form : Option String) :
    (form = none →
      indexApp w Method.post form = (⟨some empty_topic_msg, none, none⟩, [])) ∧
    (∀ raw, form = some raw → (∀ c ∈ raw.data, isPySpace c) →
      indexApp w Method.post form = (⟨some empty_topic_msg, none, none⟩, [])) ∧
    (∀ t, pyStrip (form.getD "") = t → t ≠ "" →
      (indexApp w Method.post form).1.topic = some t ∧
      Event.search t 5 ∈ (indexApp w Method.post form).2 ∧
      (∀ q k, Event.search q k ∈ (indexApp w Method.post form).2 → q = t) ∧
      (∀ q cs, Event.generate q cs ∈ (indexApp w Method.post form).2 → q = t)) := by
  refine ⟨fun h => ?_, fun raw hr hsp => ?_, ?_⟩
  · subst h
    simp [indexApp, show pyStrip "" = "" from rfl]
  · subst hr
    simp [indexApp, pyStrip_eq_empty_of_all_space raw hsp]
  · rintro t rfl ht
    by_cases hs : search_articles w (pyStrip (form.getD "")) 5 = []
    · have htr : indexApp w Method.post form =
          (⟨some no_articles_msg, some (pyStrip (form.getD "")), none⟩,
           [Event.search (pyStrip (form.getD "")) 5]) := by
        simp [indexApp, ht, hs]
      rw [htr]
      refine ⟨rfl, by simp, fun q k hq => ?_, fun q cs hq => ?_⟩
      · simp at hq
        exact hq.1
      · simp at hq
    · by_cases hc : fetch_all_articles_parallel w
          (search_articles w (pyStrip (form.getD "")) 5) = []
      · have htr : indexApp w Method.post form =
            (⟨some extraction_failed_msg, some (pyStrip (form.getD "")),
              some (search_articles w (pyStrip (form.getD "")) 5)⟩,
             [Event.search (pyStrip (form.getD "")) 5,
              Event.fetchAll (search_articles w (pyStrip (form.getD "")) 5)]) := by
          simp [indexApp, ht, hs, hc]
        rw [htr]
        refine ⟨rfl, by simp, fun q k hq => ?_, fun q cs hq => ?_⟩
        · simp at hq
          exact hq.1
        · simp at hq
      · have htr : indexApp w Method.post form =
            (⟨some (w.markdownFn (generate_summary_with_model w (pyStrip (form.getD ""))
                (fetch_all_articles_parallel w
                  (search_articles w (pyStrip (form.getD "")) 5)))),
              some (pyStrip (form.getD "")),
              some (search_articles w (pyStrip (form.getD "")) 5)⟩,
             [Event.search (pyStrip (form.getD "")) 5,
              Event.fetchAll (search_articles w (pyStrip (form.getD "")) 5),
              Event.generate (pyStrip (form.getD ""))
                (fetch_all_articles_parallel w
                  (search_articles w (pyStrip (form.getD "")) 5)),
              Event.markdown (generate_summary_with_model w (pyStrip (form.getD ""))
                (fetch_all_articles_parallel w
                  (search_articles w (pyStrip (form.getD "")) 5)))]) := by
          simp [indexApp, ht, hs, hc]
        rw [htr]
        refine ⟨rfl, by simp, fun q k hq => ?_, fun q cs hq => ?_⟩
        · simp at hq
          exact hq.1
        · simp at hq
          exact hq.1

/-- Witness for C10 at a concrete input: a topic field of space, no-break
space (U+00A0) and tab is whitespace-only and is answered with the empty-topic
message and no stage call. -/
theorem C10_topic_stripped_before_validation_witness :
    indexApp wNull Method.post (some " \xa0\t ") =
      (⟨some empty_topic_msg, none, none⟩, []) :=
  (C10_topic_stripped_before_validation wNull (some " \xa0\t ")).2.1
    " \xa0\t " rfl (by decide)

end ResearchAgent
